import Mathlib

/-!
Verification of the live-collection view-state model of the admin dashboard
component (`src/components/dashboards/AdminDashboard.tsx`).

The component is shallowly embedded: the four snapshot materializers, the four
form-submit handlers, the derived report views, the class-scoped timetable
subscription and the remote-store paths are translated into pure Lean
functions; the React state updates become explicit state passing.  JavaScript
string falsiness (`!s`) is modelled as equality with the empty string, which is
the only falsy string value.  `new Date(s).getTime()` applied to the stored
`createdAt` strings is modelled by carrying the parsed timestamp (epoch
milliseconds) as an integer field of the snapshot body.  `Math.round`, applied
to a non-negative quotient of collection sizes, is modelled as the exact
rational round-half-up `⌊x + 1/2⌋` (ECMA-262 `Math.round`); the float division
of two small natural numbers realises exactly this value.
-/

namespace AdminDashboard

/-- A materialized record: the snapshot key `id` merged with the record body,
modelling `{ id, ...body }` (line 39-42 of the source). -/
structure Entry (β : Type) where
  id : String
  body : β
  deriving DecidableEq

/-- Remote body of a teacher record, as pushed by `handleAddTeacher`
(lines 29 and 57): the draft fields plus `createdAt`. -/
structure TeacherBody where
  name : String
  username : String
  password : String
  subject : String
  createdAt : String
  deriving DecidableEq

/-- Remote body of a class record, as pushed by `handleAddClass`
(lines 30 and 68): the draft fields plus denormalized `teacherName` and
`createdAt`. -/
structure ClassBody where
  name : String
  grade : String
  teacherId : String
  teacherName : String
  createdAt : String
  deriving DecidableEq

/-- Remote body of a student record, as pushed by `handleAddStudent`
(lines 31 and 79). -/
structure StudentBody where
  name : String
  username : String
  password : String
  classId : String
  className : String
  createdAt : String
  deriving DecidableEq

/-- Remote body of an announcement record as seen by the announcements
subscription (line 42).  `createdAt` is the value of
`new Date(a.createdAt).getTime()`: the parsed timestamp in milliseconds. -/
structure AnnBody where
  title : String
  content : String
  priority : String
  author : String
  createdAt : Int
  deriving DecidableEq

/-- Record written by `handleAddAnnouncement` (line 89): the draft fields plus
`author` and the ISO `createdAt` string. -/
structure AnnouncementWrite where
  title : String
  content : String
  priority : String
  author : String
  createdAt : String
  deriving DecidableEq

/-- Snapshot materialization shared by the four collection listeners
(lines 39-42): `data ? Object.entries(data).map(([id, t]) => ({ id, ...t })) : []`.
`none` models a `null` payload; `some entries` models an object payload whose
`Object.entries` are `entries` (an empty object gives `some []`). -/
def materialize {β : Type} (data : Option (List (String × β))) : List (Entry β) :=
  match data with
  | none => []
  | some entries => entries.map fun e => { id := e.1, body := e.2 }

/-- The teachers listener (line 39). -/
def materializeTeachers (data : Option (List (String × TeacherBody))) : List (Entry TeacherBody) :=
  materialize data

/-- The classes listener (line 40). -/
def materializeClasses (data : Option (List (String × ClassBody))) : List (Entry ClassBody) :=
  materialize data

/-- The students listener (line 41). -/
def materializeStudents (data : Option (List (String × StudentBody))) : List (Entry StudentBody) :=
  materialize data

/-- The comparison underlying the announcements sort (line 42):
`(a, b) => new Date(b.createdAt).getTime() - new Date(a.createdAt).getTime()`
places `a` no later than `b` exactly when `b`'s timestamp is at most `a`'s. -/
def annLE (a b : Entry AnnBody) : Prop :=
  b.body.createdAt ≤ a.body.createdAt

instance annLE.decidableRel : DecidableRel annLE :=
  fun a b => inferInstanceAs (Decidable (b.body.createdAt ≤ a.body.createdAt))

instance annLE.isTotal : IsTotal (Entry AnnBody) annLE :=
  ⟨fun a b => Int.le_total b.body.createdAt a.body.createdAt⟩

instance annLE.isTrans : IsTrans (Entry AnnBody) annLE :=
  ⟨fun _ _ _ hab hbc => le_trans hbc hab⟩

/-- The announcements listener (line 42): materialize, then sort by `createdAt`
descending.  `Array.prototype.sort` is stable (ECMA-262), and a stable sort for
a total preorder is unique, so the stable `List.insertionSort` models it
exactly.  Sorting is applied uniformly since sorting the empty list is the
empty list. -/
def materializeAnnouncements (data : Option (List (String × AnnBody))) : List (Entry AnnBody) :=
  List.insertionSort annLE (materialize data)

/-- A toast notification as issued through `useToast` by the submit handlers. -/
structure Toast where
  title : String
  description : String
  destructive : Bool
  deriving DecidableEq

/-- The validation-failure toast common to all four handlers
(lines 55, 65, 76, 87): this is how a MissingFields validation error is
reported. -/
def errorToast : Toast :=
  { title := "Error", description := "Please fill all fields", destructive := true }

/-- Success toast of `handleAddTeacher` (line 60). -/
def teacherSuccessToast : Toast :=
  { title := "Success", description := "Teacher added successfully", destructive := false }

/-- Success toast of `handleAddClass` (line 71). -/
def classSuccessToast : Toast :=
  { title := "Success", description := "Class created successfully", destructive := false }

/-- Success toast of `handleAddStudent` (line 82). -/
def studentSuccessToast : Toast :=
  { title := "Success", description := "Student enrolled successfully", destructive := false }

/-- Success toast of `handleAddAnnouncement` (line 92). -/
def announcementSuccessToast : Toast :=
  { title := "Success", description := "Announcement posted", destructive := false }

/-- Teacher form draft (line 29). -/
structure TeacherDraft where
  name : String
  username : String
  password : String
  subject : String
  deriving DecidableEq

/-- Class form draft (line 30). -/
structure ClassDraft where
  name : String
  grade : String
  teacherId : String
  deriving DecidableEq

/-- Student form draft (line 31). -/
structure StudentDraft where
  name : String
  username : String
  password : String
  classId : String
  deriving DecidableEq

/-- Announcement form draft (line 32). -/
structure AnnouncementDraft where
  title : String
  content : String
  priority : String
  deriving DecidableEq

/-- Initial (and reset) teacher draft, lines 29 and 58. -/
def initialTeacherDraft : TeacherDraft :=
  { name := "", username := "", password := "", subject := "" }

/-- Initial (and reset) class draft, lines 30 and 69. -/
def initialClassDraft : ClassDraft :=
  { name := "", grade := "", teacherId := "" }

/-- Initial (and reset) student draft, lines 31 and 80. -/
def initialStudentDraft : StudentDraft :=
  { name := "", username := "", password := "", classId := "" }

/-- Initial (and reset) announcement draft, lines 32 and 90. -/
def initialAnnouncementDraft : AnnouncementDraft :=
  { title := "", content := "", priority := "normal" }

/-- Observable outcome of one submit-handler invocation: the `dbPush` calls
issued (path and record), the toasts shown, and the draft state afterwards. -/
structure Outcome (δ ρ : Type) where
  pushes : List (String × ρ)
  toasts : List Toast
  draft : δ
  deriving DecidableEq

/-- The guard of `handleAddTeacher` (line 54): some required field is falsy,
i.e. the empty string. -/
def teacherDraftMissing (d : TeacherDraft) : Prop :=
  d.name = "" ∨ d.username = "" ∨ d.password = "" ∨ d.subject = ""

instance teacherDraftMissing.dec (d : TeacherDraft) : Decidable (teacherDraftMissing d) :=
  inferInstanceAs (Decidable (_ ∨ _ ∨ _ ∨ _))

/-- The guard of `handleAddClass` (line 64). -/
def classDraftMissing (d : ClassDraft) : Prop :=
  d.name = "" ∨ d.grade = "" ∨ d.teacherId = ""

instance classDraftMissing.dec (d : ClassDraft) : Decidable (classDraftMissing d) :=
  inferInstanceAs (Decidable (_ ∨ _ ∨ _))

/-- The guard of `handleAddStudent` (line 75). -/
def studentDraftMissing (d : StudentDraft) : Prop :=
  d.name = "" ∨ d.username = "" ∨ d.password = "" ∨ d.classId = ""

instance studentDraftMissing.dec (d : StudentDraft) : Decidable (studentDraftMissing d) :=
  inferInstanceAs (Decidable (_ ∨ _ ∨ _ ∨ _))

/-- The guard of `handleAddAnnouncement` (line 86): only title and content are
checked. -/
def announcementDraftMissing (d : AnnouncementDraft) : Prop :=
  d.title = "" ∨ d.content = ""

instance announcementDraftMissing.dec (d : AnnouncementDraft) :
    Decidable (announcementDraftMissing d) :=
  inferInstanceAs (Decidable (_ ∨ _))

/-- `x || 'Unassigned'` on an optional name (`teacher?.name || 'Unassigned'`,
lines 68 and 79): the name if present and truthy (non-empty), otherwise the
literal placeholder. -/
def orUnassigned (s : Option String) : String :=
  match s with
  | some n => if n = "" then ("Unassigned") else n
  | none => ("Unassigned")

/-- `handleAddTeacher` (lines 53-61). -/
def handleAddTeacher (now : String) (d : TeacherDraft) : Outcome TeacherDraft TeacherBody :=
  if teacherDraftMissing d then
    { pushes := [], toasts := [errorToast], draft := d }
  else
    { pushes := [(("teachers" : String),
        { name := d.name, username := d.username, password := d.password,
          subject := d.subject, createdAt := now })],
      toasts := [teacherSuccessToast],
      draft := initialTeacherDraft }

/-- `handleAddClass` (lines 63-72): validate, resolve `teacherId` against the
current local teacher collection, push with the denormalized `teacherName`. -/
def handleAddClass (now : String) (teachers : List (Entry TeacherBody)) (d : ClassDraft) :
    Outcome ClassDraft ClassBody :=
  if classDraftMissing d then
    { pushes := [], toasts := [errorToast], draft := d }
  else
    let teacher := teachers.find? fun t => t.id == d.teacherId
    { pushes := [(("classes" : String),
        { name := d.name, grade := d.grade, teacherId := d.teacherId,
          teacherName := orUnassigned (teacher.map fun t => t.body.name),
          createdAt := now })],
      toasts := [classSuccessToast],
      draft := initialClassDraft }

/-- `handleAddStudent` (lines 74-83). -/
def handleAddStudent (now : String) (classes : List (Entry ClassBody)) (d : StudentDraft) :
    Outcome StudentDraft StudentBody :=
  if studentDraftMissing d then
    { pushes := [], toasts := [errorToast], draft := d }
  else
    let cls := classes.find? fun c => c.id == d.classId
    { pushes := [(("students" : String),
        { name := d.name, username := d.username, password := d.password,
          classId := d.classId,
          className := orUnassigned (cls.map fun c => c.body.name),
          createdAt := now })],
      toasts := [studentSuccessToast],
      draft := initialStudentDraft }

/-- `handleAddAnnouncement` (lines 85-93): the pushed record always carries
`author: 'Principal'`. -/
def handleAddAnnouncement (now : String) (d : AnnouncementDraft) :
    Outcome AnnouncementDraft AnnouncementWrite :=
  if announcementDraftMissing d then
    { pushes := [], toasts := [errorToast], draft := d }
  else
    { pushes := [(("announcements" : String),
        { title := d.title, content := d.content, priority := d.priority,
          author := "Principal", createdAt := now })],
      toasts := [announcementSuccessToast],
      draft := initialAnnouncementDraft }

/-- One bar of the reports chart: `{ name, count }` (line 359). -/
structure GradeEntry where
  name : String
  count : Nat
  deriving DecidableEq

/-- The comparison underlying the grade-entry sort (line 360):
`(a, b) => a.name.localeCompare(b.name)`, modelled as lexicographic string
order. -/
def gradeLE (a b : GradeEntry) : Prop :=
  a.name ≤ b.name

instance gradeLE.decidableRel : DecidableRel gradeLE :=
  fun a b => inferInstanceAs (Decidable (a.name ≤ b.name))

instance gradeLE.isTotal : IsTotal GradeEntry gradeLE :=
  ⟨fun a b => le_total a.name b.name⟩

instance gradeLE.isTrans : IsTrans GradeEntry gradeLE :=
  ⟨fun _ _ _ hab hbc => le_trans hab hbc⟩

/-- `studentsByGrade` (lines 357-360): one entry per class, labelled
`Grade ${cls.grade}`, counting the students whose `classId` matches the class
id, sorted by label. -/
def studentsByGrade (classes : List (Entry ClassBody)) (students : List (Entry StudentBody)) :
    List GradeEntry :=
  List.insertionSort gradeLE
    (classes.map fun cls =>
      { name := "Grade " ++ cls.body.grade,
        count := (students.filter fun s => s.body.classId == cls.id).length })

/-- Exact rational model of `Math.round` on a non-negative finite value:
round half toward positive infinity, `⌊x + 1/2⌋` (ECMA-262 §21.3.2.28). -/
def jsMathRound (x : ℚ) : ℤ :=
  ⌊x + 1 / 2⌋

/-- The Avg. Class Size statistic (line 433):
`classes.length > 0 ? Math.round(students.length / classes.length) : 0`. -/
def avgClassSize (studentCount classCount : ℕ) : ℤ :=
  if 0 < classCount then jsMathRound ((studentCount : ℚ) / (classCount : ℚ)) else 0

/-- The Student/Teacher statistic (line 441):
`teachers.length > 0 ? Math.round(students.length / teachers.length) : 0`. -/
def studentsPerTeacher (studentCount teacherCount : ℕ) : ℤ :=
  if 0 < teacherCount then jsMathRound ((studentCount : ℚ) / (teacherCount : ℚ)) else 0

/-- One timetable slot (line 34). -/
structure Slot where
  subject : String
  time : String
  deriving DecidableEq

/-- State owned by the timetable effect (lines 33-34 and 47-51): the currently
subscribed path, if any, and the materialized `timetableData` mapping from day
to slots (`{}` is the empty list). -/
structure TimetableState where
  active : Option String
  timetable : List (String × List Slot)
  deriving DecidableEq

/-- The scoped subscription path (line 49): `schedules/${selectedTimetableClass}`. -/
def schedulePath (classId : String) : String :=
  "schedules/" ++ classId

/-- Effect of changing `selectedTimetableClass` (lines 47-51).  React runs the
previous effect's cleanup (the previous `unsub`) before the new effect body, so
the previous subscription is released in every case; with an empty selection
the timetable is reset to `{}` and no new subscription is opened, otherwise a
subscription to the new path is opened and the timetable keeps its value until
a snapshot arrives. -/
def selectTimetableClass (st : TimetableState) (sel : String) : TimetableState :=
  if sel = "" then { active := none, timetable := [] }
  else { active := some (schedulePath sel), timetable := st.timetable }

/-- Delivery of a snapshot on `path`.  An unsubscribed listener's callback is
never invoked, so the snapshot is applied only when `path` is the currently
subscribed path; `data || {}` becomes `data.getD []` (line 49). -/
def deliverTimetableSnapshot (st : TimetableState) (path : String)
    (data : Option (List (String × List Slot))) : TimetableState :=
  if st.active = some path then { st with timetable := data.getD [] } else st

/-- The four collection paths passed to `dbListen` (lines 39-42). -/
def collectionPaths : List String :=
  ["teachers", "classes", "students", "announcements"]

/-- All paths the component listens on, given the selected timetable class:
the four collections (lines 39-42), plus the scoped schedule path when a class
is selected (lines 47-51). -/
def listenPaths (sel : String) : List String :=
  collectionPaths ++ (if sel = "" then [] else [schedulePath sel])

/-- The record paths passed to `dbRemove` for a record id (lines 166, 256,
287, 314, 345). -/
def removePaths (rid : String) : List String :=
  ["teachers/" ++ rid, "classes/" ++ rid, "students/" ++ rid, "announcements/" ++ rid]

/-- Two classes, in grades 1 and 2, for the reports scenario. -/
def demoClasses : List (Entry ClassBody) :=
  [⟨"c1", ⟨"A", "1", "t1", "X", "d"⟩⟩, ⟨"c2", ⟨"B", "2", "t2", "Y", "d"⟩⟩]

/-- Ten students: six enrolled in class `c1`, four in class `c2`. -/
def demoStudents : List (Entry StudentBody) :=
  [⟨"s1", ⟨"S1", "u1", "p", "c1", "A", "d"⟩⟩, ⟨"s2", ⟨"S2", "u2", "p", "c1", "A", "d"⟩⟩,
   ⟨"s3", ⟨"S3", "u3", "p", "c1", "A", "d"⟩⟩, ⟨"s4", ⟨"S4", "u4", "p", "c1", "A", "d"⟩⟩,
   ⟨"s5", ⟨"S5", "u5", "p", "c1", "A", "d"⟩⟩, ⟨"s6", ⟨"S6", "u6", "p", "c1", "A", "d"⟩⟩,
   ⟨"s7", ⟨"S7", "u7", "p", "c2", "B", "d"⟩⟩, ⟨"s8", ⟨"S8", "u8", "p", "c2", "B", "d"⟩⟩,
   ⟨"s9", ⟨"S9", "u9", "p", "c2", "B", "d"⟩⟩, ⟨"s10", ⟨"S10", "u10", "p", "c2", "B", "d"⟩⟩]

/-- A teacher collection holding a single teacher whose `name` field is the
empty string. -/
def emptyNameTeachers : List (Entry TeacherBody) :=
  [⟨"t1", ⟨"", "u", "p", "Math", "d"⟩⟩]

/-- A class collection holding a single class whose `name` field is the empty
string. -/
def emptyNameClasses : List (Entry ClassBody) :=
  [⟨"c1", ⟨"", "5", "t1", "T", "d"⟩⟩]

/-- A valid class draft whose `teacherId` is `t1`. -/
def demoClassDraft : ClassDraft :=
  ⟨"1A", "5", "t1"⟩

/-- A valid class draft whose `teacherId` matches no teacher. -/
def unmatchedClassDraft : ClassDraft :=
  ⟨"1A", "5", "tz"⟩

/-- A teacher collection holding one teacher `t1` named Alice. -/
def aliceTeachers : List (Entry TeacherBody) :=
  [⟨"t1", ⟨"Alice", "u", "p", "Math", "d"⟩⟩]

/-- A valid student draft whose `classId` is `c1`. -/
def demoStudentDraft : StudentDraft :=
  ⟨"Bob", "b", "p", "c1"⟩

theorem schedulePath_inj {a b : String} (h : schedulePath a = schedulePath b) : a = b := by
  have hd := congrArg String.data h
  simp only [schedulePath, String.data_append] at hd
  exact String.ext (List.append_cancel_left hd)

/-- Claim C1: for every entity draft (Teacher, Class, Student, Announcement),
the submit handler either succeeds and issues exactly one push to the target
collection containing all required fields plus a `createdAt` timestamp, or,
when any required field is absent or empty, reports the validation error and
issues zero pushes, leaving the draft unchanged. -/
theorem claim_C1 (now : String) (td : TeacherDraft) (ts : List (Entry TeacherBody))
    (cd : ClassDraft) (cs : List (Entry ClassBody)) (sd : StudentDraft)
    (ad : AnnouncementDraft) :
    ((¬ teacherDraftMissing td →
        (handleAddTeacher now td).pushes.length = 1 ∧
        ∀ p ∈ (handleAddTeacher now td).pushes,
          p.1 = "teachers" ∧ p.2.name = td.name ∧ p.2.username = td.username ∧
            p.2.password = td.password ∧ p.2.subject = td.subject ∧ p.2.createdAt = now) ∧
      (teacherDraftMissing td →
        (handleAddTeacher now td).toasts = [errorToast] ∧
          (handleAddTeacher now td).pushes = [] ∧ (handleAddTeacher now td).draft = td) ∧
      (teacherDraftMissing td ↔
        td.name = "" ∨ td.username = "" ∨ td.password = "" ∨ td.subject = "")) ∧
    ((¬ classDraftMissing cd →
        (handleAddClass now ts cd).pushes.length = 1 ∧
        ∀ p ∈ (handleAddClass now ts cd).pushes,
          p.1 = "classes" ∧ p.2.name = cd.name ∧ p.2.grade = cd.grade ∧
            p.2.teacherId = cd.teacherId ∧ p.2.createdAt = now) ∧
      (classDraftMissing cd →
        (handleAddClass now ts cd).toasts = [errorToast] ∧
          (handleAddClass now ts cd).pushes = [] ∧ (handleAddClass now ts cd).draft = cd) ∧
      (classDraftMissing cd ↔ cd.name = "" ∨ cd.grade = "" ∨ cd.teacherId = "")) ∧
    ((¬ studentDraftMissing sd →
        (handleAddStudent now cs sd).pushes.length = 1 ∧
        ∀ p ∈ (handleAddStudent now cs sd).pushes,
          p.1 = "students" ∧ p.2.name = sd.name ∧ p.2.username = sd.username ∧
            p.2.password = sd.password ∧ p.2.classId = sd.classId ∧ p.2.createdAt = now) ∧
      (studentDraftMissing sd →
        (handleAddStudent now cs sd).toasts = [errorToast] ∧
          (handleAddStudent now cs sd).pushes = [] ∧ (handleAddStudent now cs sd).draft = sd) ∧
      (studentDraftMissing sd ↔
        sd.name = "" ∨ sd.username = "" ∨ sd.password = "" ∨ sd.classId = "")) ∧
    ((¬ announcementDraftMissing ad →
        (handleAddAnnouncement now ad).pushes.length = 1 ∧
        ∀ p ∈ (handleAddAnnouncement now ad).pushes,
          p.1 = "announcements" ∧ p.2.title = ad.title ∧ p.2.content = ad.content ∧
            p.2.createdAt = now) ∧
      (announcementDraftMissing ad →
        (handleAddAnnouncement now ad).toasts = [errorToast] ∧
          (handleAddAnnouncement now ad).pushes = [] ∧
          (handleAddAnnouncement now ad).draft = ad) ∧
      (announcementDraftMissing ad ↔ ad.title = "" ∨ ad.content = "")) := by
  refine ⟨⟨fun h => ?_, fun h => ?_, Iff.rfl⟩, ⟨fun h => ?_, fun h => ?_, Iff.rfl⟩,
    ⟨fun h => ?_, fun h => ?_, Iff.rfl⟩, ⟨fun h => ?_, fun h => ?_, Iff.rfl⟩⟩ <;>
    simp_all [handleAddTeacher, handleAddClass, handleAddStudent, handleAddAnnouncement]

theorem claim_C1_witness :
    (¬ teacherDraftMissing { name := "a", username := "b", password := "c", subject := "d" }) ∧
    (handleAddTeacher ("T0")
        { name := "a", username := "b", password := "c", subject := "d" }).pushes.length = 1 ∧
    teacherDraftMissing { name := "", username := "b", password := "c", subject := "d" } ∧
    (handleAddTeacher ("T0")
        { name := "", username := "b", password := "c", subject := "d" }).pushes = [] := by
  refine ⟨by decide, ?_, by decide, ?_⟩
  · exact ((claim_C1 ("T0") { name := "a", username := "b", password := "c", subject := "d" }
      [] initialClassDraft [] initialStudentDraft initialAnnouncementDraft).1.1
        (by decide)).1
  · exact ((claim_C1 ("T0") { name := "", username := "b", password := "c", subject := "d" }
      [] initialClassDraft [] initialStudentDraft initialAnnouncementDraft).1.2.1
        (by decide)).2.1

/-- Claim C6: with no class selected the materialized timetable is immediately
empty and no subscription is active; on a selection change the previous path's
listener is released before the new subscription exists, so a snapshot from
the old path is never applied after the switch. -/
theorem claim_C6 (st : TimetableState) (sel old : String)
    (data : Option (List (String × List Slot))) :
    (selectTimetableClass st ("")).active = none ∧
    (selectTimetableClass st ("")).timetable = [] ∧
    (sel ≠ "" → (selectTimetableClass st sel).active = some (schedulePath sel)) ∧
    (old ≠ sel →
      deliverTimetableSnapshot (selectTimetableClass st sel) (schedulePath old) data
        = selectTimetableClass st sel) := by
  refine ⟨by simp [selectTimetableClass], by simp [selectTimetableClass],
    fun h => by simp [selectTimetableClass, h], fun h => ?_⟩
  by_cases hsel : sel = ""
  · subst hsel
    simp [selectTimetableClass, deliverTimetableSnapshot]
  · have hne : schedulePath sel ≠ schedulePath old := fun hc => h (schedulePath_inj hc).symm
    simp [selectTimetableClass, deliverTimetableSnapshot, hsel, hne]

theorem claim_C6_witness :
    (("c2" : String) ≠ "") ∧ (("c1" : String) ≠ "c2") ∧
    (selectTimetableClass { active := none, timetable := [] } ("c2")).active
      = some (schedulePath ("c2")) ∧
    deliverTimetableSnapshot
        (selectTimetableClass { active := none, timetable := [] } ("c2"))
        (schedulePath ("c1"))
        (some [(("Monday" : String), [{ subject := "Math", time := "9:00" }])])
      = selectTimetableClass { active := none, timetable := [] } ("c2") := by
  refine ⟨by decide, by decide, ?_, ?_⟩
  · exact (claim_C6 { active := none, timetable := [] } ("c2") ("c1")
      (some [(("Monday" : String), [{ subject := "Math", time := "9:00" }])])).2.2.1
      (by decide)
  · exact (claim_C6 { active := none, timetable := [] } ("c2") ("c1")
      (some [(("Monday" : String), [{ subject := "Math", time := "9:00" }])])).2.2.2
      (by decide)

/-- Claim C7: for each of the four tracked collections, an absent (`null`) or
empty snapshot payload materializes to the empty sequence, and a non-empty
payload becomes the sequence of records formed by merging each snapshot key
as `id` with the record body (for announcements, up to the documented
reordering: the result is a permutation of that sequence). -/
theorem claim_C7 (tl : List (String × TeacherBody)) (cl : List (String × ClassBody))
    (sl : List (String × StudentBody)) (al : List (String × AnnBody)) :
    (materializeTeachers none = [] ∧ materializeTeachers (some []) = [] ∧
      materializeTeachers (some tl) = tl.map fun e => { id := e.1, body := e.2 }) ∧
    (materializeClasses none = [] ∧ materializeClasses (some []) = [] ∧
      materializeClasses (some cl) = cl.map fun e => { id := e.1, body := e.2 }) ∧
    (materializeStudents none = [] ∧ materializeStudents (some []) = [] ∧
      materializeStudents (some sl) = sl.map fun e => { id := e.1, body := e.2 }) ∧
    (materializeAnnouncements none = [] ∧ materializeAnnouncements (some []) = [] ∧
      (materializeAnnouncements (some al)).Perm
        (al.map fun e => { id := e.1, body := e.2 })) :=
  ⟨⟨rfl, rfl, rfl⟩, ⟨rfl, rfl, rfl⟩, ⟨rfl, rfl, rfl⟩,
    ⟨rfl, rfl, List.perm_insertionSort annLE _⟩⟩

/-- Claim C8 counterexample: the scoped listen path for the selected class
`c1` is `schedules/c1`, and it is not of the claimed form
`schedules/{classId}/{day}` for any day string. -/
theorem claim_C8_counterexample :
    schedulePath ("c1") ∈ listenPaths ("c1") ∧
    ¬ ∃ day : String, schedulePath ("c1") = ("schedules/" ++ "c1" ++ "/") ++ day := by
  constructor
  · decide
  · rintro ⟨day, h⟩
    have hl := congrArg String.length h
    rw [String.length_append] at hl
    have h1 : (schedulePath ("c1")).length = 12 := rfl
    have h2 : (("schedules/" ++ "c1" ++ "/") : String).length = 13 := rfl
    rw [h1, h2] at hl
    omega

/-- Claim C8 as amended: the component listens on exactly `teachers`,
`classes`, `students`, `announcements`, plus the scoped path
`schedules/{classId}` when a class is selected (the day is a key inside the
snapshot payload, not a path segment); every push targets one of the four
collection paths; removes target record paths of the form
`{collection}/{recordId}`. -/
theorem claim_C8 (sel rid now : String) (td : TeacherDraft) (ts : List (Entry TeacherBody))
    (cd : ClassDraft) (cs : List (Entry ClassBody)) (sd : StudentDraft)
    (ad : AnnouncementDraft) :
    listenPaths ("") = ["teachers", "classes", "students", "announcements"] ∧
    (sel ≠ "" → listenPaths sel
      = ["teachers", "classes", "students", "announcements", "schedules/" ++ sel]) ∧
    (∀ p ∈ (handleAddTeacher now td).pushes, p.1 = "teachers") ∧
    (∀ p ∈ (handleAddClass now ts cd).pushes, p.1 = "classes") ∧
    (∀ p ∈ (handleAddStudent now cs sd).pushes, p.1 = "students") ∧
    (∀ p ∈ (handleAddAnnouncement now ad).pushes, p.1 = "announcements") ∧
    removePaths rid
      = ["teachers/" ++ rid, "classes/" ++ rid, "students/" ++ rid,
          "announcements/" ++ rid] := by
  refine ⟨rfl, fun h => by simp [listenPaths, collectionPaths, schedulePath, h],
    ?_, ?_, ?_, ?_, rfl⟩ <;>
    first
    | · intro p hp
        by_cases hm : teacherDraftMissing td <;>
          simp_all [handleAddTeacher]
    | · intro p hp
        by_cases hm : classDraftMissing cd <;>
          simp_all [handleAddClass]
    | · intro p hp
        by_cases hm : studentDraftMissing sd <;>
          simp_all [handleAddStudent]
    | · intro p hp
        by_cases hm : announcementDraftMissing ad <;>
          simp_all [handleAddAnnouncement]

theorem claim_C8_witness :
    (("c1" : String) ≠ "") ∧
    listenPaths ("c1")
      = ["teachers", "classes", "students", "announcements", "schedules/" ++ "c1"] := by
  refine ⟨by decide, ?_⟩
  exact (claim_C8 ("c1") ("r1") ("T0") initialTeacherDraft [] initialClassDraft []
    initialStudentDraft initialAnnouncementDraft).2.1 (by decide)

/-- Claim C9: every pushed announcement has `author = "Principal"` regardless
of the draft; validation checks only title and content, so any priority value
passes; the draft's priority defaults to `"normal"`. -/
theorem claim_C9 (now : String) (d : AnnouncementDraft) :
    (∀ p ∈ (handleAddAnnouncement now d).pushes, p.2.author = "Principal") ∧
    (d.title ≠ "" → d.content ≠ "" →
      (handleAddAnnouncement now d).pushes
        = [(("announcements" : String),
            { title := d.title, content := d.content, priority := d.priority,
              author := "Principal", createdAt := now })] ∧
      (handleAddAnnouncement now d).toasts = [announcementSuccessToast]) ∧
    initialAnnouncementDraft.priority = "normal" := by
  refine ⟨?_, fun h1 h2 => ?_, rfl⟩
  · intro p hp
    by_cases hm : announcementDraftMissing d <;> simp_all [handleAddAnnouncement]
  · have hm : ¬ announcementDraftMissing d := by
      simp [announcementDraftMissing, h1, h2]
    simp [handleAddAnnouncement, hm]

theorem claim_C9_witness :
    (("Exam" : String) ≠ "") ∧ (("Friday" : String) ≠ "") ∧
    (handleAddAnnouncement ("T0")
        { title := "Exam", content := "Friday", priority := "whatever" }).pushes
      = [(("announcements" : String),
          { title := "Exam", content := "Friday", priority := "whatever",
            author := "Principal", createdAt := "T0" })] := by
  refine ⟨by decide, by decide, ?_⟩
  exact ((claim_C9 ("T0")
    { title := "Exam", content := "Friday", priority := "whatever" }).2.1
      (by decide) (by decide)).1

theorem insertionSort_filter_createdAt (c : Int) (l : List (Entry AnnBody)) :
    (List.insertionSort annLE l).filter (fun x => x.body.createdAt == c)
      = l.filter (fun x => x.body.createdAt == c) := by
  have hall : ∀ x ∈ l.filter (fun x => x.body.createdAt == c), x.body.createdAt = c := by
    intro x hx
    simpa using (List.mem_filter.mp hx).2
  have hpw : (l.filter (fun x => x.body.createdAt == c)).Pairwise annLE :=
    List.pairwise_of_forall_mem_list fun a ha b hb => by
      unfold annLE
      rw [hall a ha, hall b hb]
  have hsub : List.Sublist (l.filter fun x => x.body.createdAt == c)
      (List.insertionSort annLE l) :=
    List.sublist_insertionSort hpw (List.filter_sublist l)
  have hidem : (l.filter fun x => x.body.createdAt == c).filter
      (fun x => x.body.createdAt == c) = l.filter fun x => x.body.createdAt == c := by
    rw [List.filter_filter]
    simp
  have hsub2 : List.Sublist (l.filter fun x => x.body.createdAt == c)
      ((List.insertionSort annLE l).filter fun x => x.body.createdAt == c) := by
    have := hsub.filter fun x => x.body.createdAt == c
    rwa [hidem] at this
  have hperm : List.Perm
      ((List.insertionSort annLE l).filter fun x => x.body.createdAt == c)
      (l.filter fun x => x.body.createdAt == c) :=
    (List.perm_insertionSort annLE l).filter _
  exact (hsub2.eq_of_length hperm.length_eq.symm).symm

/-- Claim C2: every materialized announcement sequence is sorted by
`createdAt` descending, and the sort is stable: for every timestamp, the
subsequence of records carrying it is exactly the corresponding subsequence
of the arrival-ordered snapshot. -/
theorem claim_C2 (data : Option (List (String × AnnBody)))
    (al : List (String × AnnBody)) (c : Int) :
    List.Pairwise (fun a b : Entry AnnBody => b.body.createdAt ≤ a.body.createdAt)
      (materializeAnnouncements data) ∧
    (materializeAnnouncements (some al)).filter (fun x => x.body.createdAt == c)
      = (al.map fun e => { id := e.1, body := e.2 }).filter
          (fun x => x.body.createdAt == c) := by
  constructor
  · exact List.sorted_insertionSort annLE (materialize data)
  · exact insertionSort_filter_createdAt c (al.map fun e => { id := e.1, body := e.2 })

/-- Claim C3: the enrollment-by-grade view is a permutation of one entry per
class, labelled `Grade ${grade}` and counting the students whose `classId`
matches the class id, sorted lexicographically by label; in the 6/4 split
scenario it yields exactly two entries summing to 10. -/
theorem claim_C3 (cs : List (Entry ClassBody)) (ss : List (Entry StudentBody)) :
    (studentsByGrade cs ss).Perm
      (cs.map fun cls =>
        { name := "Grade " ++ cls.body.grade,
          count := (ss.filter fun s => s.body.classId == cls.id).length }) ∧
    List.Sorted gradeLE (studentsByGrade cs ss) ∧
    studentsByGrade demoClasses demoStudents
      = [{ name := "Grade 1", count := 6 }, { name := "Grade 2", count := 4 }] ∧
    (studentsByGrade demoClasses demoStudents).length = 2 ∧
    ((studentsByGrade demoClasses demoStudents).map (fun e => e.count)).sum = 10 := by
  have h12 : gradeLE { name := "Grade 1", count := 6 } { name := "Grade 2", count := 4 } :=
    le_of_lt (by rw [String.lt_iff_toList_lt]; decide)
  have hmap : (demoClasses.map fun cls =>
      ({ name := "Grade " ++ cls.body.grade,
         count := (demoStudents.filter fun s => s.body.classId == cls.id).length }
        : GradeEntry))
      = [{ name := "Grade 1", count := 6 }, { name := "Grade 2", count := 4 }] := by
    decide
  have hdemo : studentsByGrade demoClasses demoStudents
      = [{ name := "Grade 1", count := 6 }, { name := "Grade 2", count := 4 }] := by
    unfold studentsByGrade
    rw [hmap]
    simp only [List.insertionSort, List.orderedInsert]
    rw [if_pos h12]
  refine ⟨List.perm_insertionSort gradeLE _, List.sorted_insertionSort gradeLE _,
    hdemo, ?_, ?_⟩
  · simp [hdemo]
  · simp [hdemo]

/-- Claim C4: the average-class-size view is 0 when there are no classes and
otherwise rounds the exact student/class quotient half-up (`Math.round`
agrees with the mathematical `round`); it also equals the integer
`(2s + c) / (2c)`, settling the half-way cases; the student/teacher ratio is
computed analogously with the teacher count as divisor. -/
theorem claim_C4 (s c t : ℕ) :
    avgClassSize s 0 = 0 ∧ studentsPerTeacher s 0 = 0 ∧
    (c ≠ 0 → avgClassSize s c = round ((s : ℚ) / (c : ℚ)) ∧
      avgClassSize s c = ((2 * s + c) / (2 * c) : ℕ)) ∧
    (t ≠ 0 → studentsPerTeacher s t = round ((s : ℚ) / (t : ℚ))) := by
  have key : ∀ (a b : ℕ), b ≠ 0 →
      jsMathRound ((a : ℚ) / (b : ℚ)) = round ((a : ℚ) / (b : ℚ)) ∧
      jsMathRound ((a : ℚ) / (b : ℚ)) = ((2 * a + b) / (2 * b) : ℕ) := by
    intro a b hb
    have hb0 : (b : ℚ) ≠ 0 := Nat.cast_ne_zero.mpr hb
    constructor
    · rw [round_eq]
      rfl
    · unfold jsMathRound
      have hq : (a : ℚ) / (b : ℚ) + 1 / 2
          = (((2 * a + b : ℕ) : ℤ) : ℚ) / ((2 * b : ℕ) : ℚ) := by
        push_cast
        field_simp
        ring
      rw [hq, Rat.floor_intCast_div_natCast]
      exact (Int.natCast_div (2 * a + b) (2 * b)).symm
  refine ⟨by simp [avgClassSize], by simp [studentsPerTeacher], fun hc => ?_, fun ht => ?_⟩
  · have h := key s c hc
    constructor
    · rw [avgClassSize, if_pos (Nat.pos_of_ne_zero hc)]
      exact h.1
    · rw [avgClassSize, if_pos (Nat.pos_of_ne_zero hc)]
      exact h.2
  · have h := key s t ht
    rw [studentsPerTeacher, if_pos (Nat.pos_of_ne_zero ht)]
    exact h.1

theorem claim_C4_witness :
    ((2 : ℕ) ≠ 0) ∧ avgClassSize 3 2 = round ((3 : ℚ) / (2 : ℚ)) ∧ avgClassSize 3 2 = 2 := by
  have h := (claim_C4 3 2 2).2.2.1 (by decide)
  refine ⟨by decide, h.1, ?_⟩
  rw [h.2]
  decide

/-- Claim C5 counterexample: the class draft's `teacherId` matches a teacher
in the local collection, yet the pushed `teacherName` is `"Unassigned"` and
not that teacher's name (which is empty), refuting the claim that a matched
`teacherId` always yields the matched teacher's name. -/
theorem claim_C5_counterexample :
    emptyNameTeachers.find? (fun x => x.id == demoClassDraft.teacherId)
      = some ⟨"t1", ⟨"", "u", "p", "Math", "d"⟩⟩ ∧
    (handleAddClass ("T0") emptyNameTeachers demoClassDraft).pushes.map
        (fun p => p.2.teacherName)
      = [("Unassigned" : String)] ∧
    ¬ (handleAddClass ("T0") emptyNameTeachers demoClassDraft).pushes.map
        (fun p => p.2.teacherName)
      = [(⟨"t1", ⟨"", "u", "p", "Math", "d"⟩⟩ : Entry TeacherBody).body.name] := by
  refine ⟨by decide, by decide, by decide⟩

/-- Claim C5 as amended: for a valid class draft, if the `teacherId` matches
no teacher, or matches a teacher whose name is empty, the pushed record's
`teacherName` is `"Unassigned"` and the write still succeeds; if it matches a
teacher with a non-empty name, `teacherName` is that name; the same holds for
a student draft's `classId`/`className` against the class collection. -/
theorem claim_C5 (now : String) (ts : List (Entry TeacherBody)) (cd : ClassDraft)
    (cs : List (Entry ClassBody)) (sd : StudentDraft) (t : Entry TeacherBody)
    (c : Entry ClassBody) :
    (¬ classDraftMissing cd →
      (ts.find? (fun x => x.id == cd.teacherId) = none →
        (handleAddClass now ts cd).pushes
          = [(("classes" : String),
              { name := cd.name, grade := cd.grade, teacherId := cd.teacherId,
                teacherName := "Unassigned", createdAt := now })]) ∧
      (ts.find? (fun x => x.id == cd.teacherId) = some t → t.body.name ≠ "" →
        (handleAddClass now ts cd).pushes
          = [(("classes" : String),
              { name := cd.name, grade := cd.grade, teacherId := cd.teacherId,
                teacherName := t.body.name, createdAt := now })]) ∧
      (ts.find? (fun x => x.id == cd.teacherId) = some t → t.body.name = "" →
        (handleAddClass now ts cd).pushes
          = [(("classes" : String),
              { name := cd.name, grade := cd.grade, teacherId := cd.teacherId,
                teacherName := "Unassigned", createdAt := now })])) ∧
    (¬ studentDraftMissing sd →
      (cs.find? (fun x => x.id == sd.classId) = none →
        (handleAddStudent now cs sd).pushes
          = [(("students" : String),
              { name := sd.name, username := sd.username, password := sd.password,
                classId := sd.classId, className := "Unassigned", createdAt := now })]) ∧
      (cs.find? (fun x => x.id == sd.classId) = some c → c.body.name ≠ "" →
        (handleAddStudent now cs sd).pushes
          = [(("students" : String),
              { name := sd.name, username := sd.username, password := sd.password,
                classId := sd.classId, className := c.body.name, createdAt := now })]) ∧
      (cs.find? (fun x => x.id == sd.classId) = some c → c.body.name = "" →
        (handleAddStudent now cs sd).pushes
          = [(("students" : String),
              { name := sd.name, username := sd.username, password := sd.password,
                classId := sd.classId, className := "Unassigned", createdAt := now })])) := by
  constructor
  · intro h
    exact ⟨fun hf => by simp [handleAddClass, h, hf, orUnassigned],
      fun hf hn => by simp [handleAddClass, h, hf, orUnassigned, hn],
      fun hf hn => by simp [handleAddClass, h, hf, orUnassigned, hn]⟩
  · intro h
    exact ⟨fun hf => by simp [handleAddStudent, h, hf, orUnassigned],
      fun hf hn => by simp [handleAddStudent, h, hf, orUnassigned, hn],
      fun hf hn => by simp [handleAddStudent, h, hf, orUnassigned, hn]⟩

theorem claim_C5_witness :
    (¬ classDraftMissing unmatchedClassDraft) ∧
    aliceTeachers.find? (fun x => x.id == unmatchedClassDraft.teacherId) = none ∧
    (handleAddClass ("T0") aliceTeachers unmatchedClassDraft).pushes
      = [(("classes" : String),
          { name := unmatchedClassDraft.name, grade := unmatchedClassDraft.grade,
            teacherId := unmatchedClassDraft.teacherId,
            teacherName := "Unassigned", createdAt := "T0" })] := by
  refine ⟨by decide, by decide, ?_⟩
  exact ((claim_C5 ("T0") aliceTeachers unmatchedClassDraft [] initialStudentDraft
    ⟨"t1", ⟨"Alice", "u", "p", "Math", "d"⟩⟩ ⟨"c1", ⟨"B", "2", "t2", "Y", "d"⟩⟩).1
      (by decide)).1 (by decide)

/-- Claim C10: the `"Unassigned"` fallback also fires when the referenced
record exists but its `name` field is the empty string: a matched teacher
with an empty name yields `teacherName = "Unassigned"`, and a matched class
with an empty name yields `className = "Unassigned"`. -/
theorem claim_C10 (now : String) (ts : List (Entry TeacherBody)) (cd : ClassDraft)
    (cs : List (Entry ClassBody)) (sd : StudentDraft) (t : Entry TeacherBody)
    (c : Entry ClassBody) :
    (¬ classDraftMissing cd → ts.find? (fun x => x.id == cd.teacherId) = some t →
      t.body.name = "" →
      (handleAddClass now ts cd).pushes.map (fun p => p.2.teacherName)
        = [("Unassigned" : String)]) ∧
    (¬ studentDraftMissing sd → cs.find? (fun x => x.id == sd.classId) = some c →
      c.body.name = "" →
      (handleAddStudent now cs sd).pushes.map (fun p => p.2.className)
        = [("Unassigned" : String)]) := by
  constructor
  · intro h hf hn
    simp [handleAddClass, h, hf, orUnassigned, hn]
  · intro h hf hn
    simp [handleAddStudent, h, hf, orUnassigned, hn]

theorem claim_C10_witness :
    (¬ studentDraftMissing demoStudentDraft) ∧
    emptyNameClasses.find? (fun x => x.id == demoStudentDraft.classId)
      = some ⟨"c1", ⟨"", "5", "t1", "T", "d"⟩⟩ ∧
    (handleAddStudent ("T0") emptyNameClasses demoStudentDraft).pushes.map
        (fun p => p.2.className)
      = [("Unassigned" : String)] := by
  refine ⟨by decide, by decide, ?_⟩
  exact (claim_C10 ("T0") [] initialClassDraft emptyNameClasses demoStudentDraft
    ⟨"t1", ⟨"", "u", "p", "Math", "d"⟩⟩ ⟨"c1", ⟨"", "5", "t1", "T", "d"⟩⟩).2
      (by decide) (by decide) (by decide)

end AdminDashboard
